import Mathlib

/-!
Shallow embedding of the vana-react widgets.

Part 1: the upload widget message router, from
src/components/VanaAppUploadWidget.tsx. The handler is modelled as a pure
function from the bound props, the host context, the iframe DOM state
and one inbound window message to the next DOM state plus a list of
observable effects (outbound posts, callback invocations, dev warnings).
JavaScript truthiness on optional string and number payload fields is
modelled explicitly.
-/

namespace VanaReact

/-- Key-value theme record passed through to the config message. -/
abbrev Theme := List (String × String)

/-- The props bound to a mounted VanaAppUploadWidget, as destructured at the
component head. Callback props are modelled by their presence: the three
required callbacks are always present, onClose is optional. -/
structure UploadProps where
  appId : String
  iframeOrigin : String
  schemaId : Option Int
  prompt : Option String
  theme : Option Theme
  hasOnClose : Bool
  deriving DecidableEq

/-- Ambient host-page context: the embedding origin read from
window.location.origin, and whether NODE_ENV is development. -/
structure HostCtx where
  origin : String
  devMode : Bool
  deriving DecidableEq

/-- DOM state owned by the widget: whether iframeRef.current is non-null,
whether its contentWindow is non-null, and the current height style of the
iframe element. -/
structure WidgetState where
  refAttached : Bool
  contentWindow : Bool
  heightStyle : String
  deriving DecidableEq

/-- The payload of an inbound window message, after the destructuring of
event.data into the type tag and the remaining fields. Absent fields are
none. -/
structure MessageData where
  type : String
  relayData : Option String
  walletAddress : Option String
  result : Option String
  message : Option String
  error : Option String
  height : Option Int
  deriving DecidableEq

/-- An inbound MessageEvent: its origin and its data. -/
structure MessageEvent where
  origin : String
  data : MessageData
  deriving DecidableEq

/-- The outbound config message posted to the iframe on ready. -/
structure ConfigMsg where
  appId : String
  schemaId : Option Int
  aiPrompt : Option String
  embeddingOrigin : String
  theme : Option Theme
  deriving DecidableEq

/-- Observable effects of one run of the message handler. -/
inductive Effect where
  | postConfig (cfg : ConfigMsg) (targetOrigin : String)
  | postRelay (payload : String) (targetOrigin : String)
  | callOnAuth (walletAddress : String)
  | callOnResult (data : String)
  | callOnError (message : String)
  | callOnClose
  | devWarn (tag : String)
  deriving DecidableEq

/-- JavaScript truthiness of an optional string field: present and
nonempty. -/
def strTruthy : Option String → Bool
  | none => false
  | some s => s != ""

/-- JavaScript truthiness of an optional number field: present and
nonzero. -/
def intTruthy : Option Int → Bool
  | none => false
  | some n => n != 0

/-- The error branch expression data.message || data.error || fallback,
with JavaScript short-circuiting on truthiness. -/
def jsErrorMessage (message error : Option String) : String :=
  if strTruthy message then message.getD ""
  else if strTruthy error then error.getD ""
  else "An error occurred"

/-- The switch on the message type tag, run only after the origin gate has
passed. Each branch is translated from the corresponding case of the
switch in handleMessage. -/
def dispatch (p : UploadProps) (ctx : HostCtx) (s : WidgetState) (d : MessageData) :
    WidgetState × List Effect :=
  match d.type with
  | "ready" =>
      if s.refAttached && s.contentWindow then
        (s, [Effect.postConfig
              ⟨p.appId, p.schemaId, p.prompt, ctx.origin, p.theme⟩ p.iframeOrigin])
      else (s, [])
  | "relay" =>
      if s.refAttached && s.contentWindow && strTruthy d.relayData then
        (s, [Effect.postRelay (d.relayData.getD "") p.iframeOrigin])
      else (s, [])
  | "auth" =>
      if strTruthy d.walletAddress then (s, [Effect.callOnAuth (d.walletAddress.getD "")])
      else (s, [])
  | "complete" =>
      if strTruthy d.result then (s, [Effect.callOnResult (d.result.getD "")])
      else (s, [])
  | "error" =>
      (s, [Effect.callOnError (jsErrorMessage d.message d.error)])
  | "resize" =>
      if intTruthy d.height && s.refAttached then
        ({ s with heightStyle := toString (d.height.getD 0) ++ "px" }, [])
      else (s, [])
  | "close" =>
      if p.hasOnClose then (s, [Effect.callOnClose]) else (s, [])
  | t =>
      (s, if ctx.devMode then [Effect.devWarn t] else [])

/-- The whole message handler: the origin gate followed by the dispatch on
the type tag. A message whose origin is not the configured iframe origin
returns before touching anything. -/
def handleMessage (p : UploadProps) (ctx : HostCtx) (s : WidgetState) (ev : MessageEvent) :
    WidgetState × List Effect :=
  if ev.origin = p.iframeOrigin then dispatch p ctx s ev.data else (s, [])

/-- Processing of a sequence of inbound messages: the handler is applied to
each in turn, threading the DOM state and accumulating effects. -/
def processMessages (p : UploadProps) (ctx : HostCtx) :
    WidgetState → List MessageEvent → WidgetState × List Effect
  | s, [] => (s, [])
  | s, ev :: rest =>
      let r := handleMessage p ctx s ev
      let r2 := processMessages p ctx r.1 rest
      (r2.1, r.2 ++ r2.2)

/-- A message data record with only a type tag. -/
def tagOnly (t : String) : MessageData :=
  ⟨t, none, none, none, none, none, none⟩

/-- Sample props used by witnesses, mirroring the test fixtures. -/
def sampleProps : UploadProps :=
  ⟨"test-app-123", "https://app.vana.com", some 123, some "Test prompt",
   some [("--primary", "#FF0000")], true⟩

/-- Sample host context used by witnesses. -/
def sampleCtx : HostCtx := ⟨"https://host.example.com", false⟩

/-- Sample DOM state with the iframe and its content window attached. -/
def sampleState : WidgetState := ⟨true, true, "550px"⟩

/-- C1: an inbound message whose origin differs from the configured iframe
origin is dropped whole: no callback, no outbound post, no state change,
whatever its type tag and payload. -/
theorem origin_gate_drops_foreign_messages
    (p : UploadProps) (ctx : HostCtx) (s : WidgetState) (ev : MessageEvent)
    (h : ev.origin ≠ p.iframeOrigin) :
    handleMessage p ctx s ev = (s, []) := by
  simp [handleMessage, h]

/-- Witness for C1 at a concrete adversarial-origin auth message. -/
theorem origin_gate_drops_foreign_messages_witness :
    ("https://malicious.com" : String) ≠ sampleProps.iframeOrigin ∧
      handleMessage sampleProps sampleCtx sampleState
        ⟨"https://malicious.com", { tagOnly "auth" with walletAddress := some "0xmal" }⟩ =
        (sampleState, []) :=
  ⟨by decide,
   origin_gate_drops_foreign_messages sampleProps sampleCtx sampleState
     ⟨"https://malicious.com", { tagOnly "auth" with walletAddress := some "0xmal" }⟩
     (by decide)⟩

/-- Recognizer for outbound config posts among effects. -/
def isConfigPost : Effect → Bool
  | Effect.postConfig _ _ => true
  | _ => false

/-- C2 counterexample: a ready message from the configured origin posts
nothing when the content window of the iframe is not attached, so the
handler does not always post exactly one config message per ready. -/
theorem ready_always_posts_config_cex :
    ¬ ((handleMessage sampleProps sampleCtx ⟨true, false, "550px"⟩
          ⟨sampleProps.iframeOrigin, tagOnly "ready"⟩).2.countP isConfigPost = 1) := by
  decide

/-- C2 amended: a ready message from the configured origin posts exactly one
outbound config message, built from the bound props and the host window
origin, provided the iframe element and its content window are attached;
otherwise it posts nothing. -/
theorem ready_posts_one_config
    (p : UploadProps) (ctx : HostCtx) (s : WidgetState) (d : MessageData)
    (ht : d.type = "ready") :
    (s.refAttached = true → s.contentWindow = true →
      handleMessage p ctx s ⟨p.iframeOrigin, d⟩ =
        (s, [Effect.postConfig ⟨p.appId, p.schemaId, p.prompt, ctx.origin, p.theme⟩
               p.iframeOrigin])) ∧
    ((s.refAttached && s.contentWindow) = false →
      handleMessage p ctx s ⟨p.iframeOrigin, d⟩ = (s, [])) := by
  obtain ⟨t, rd, wa, rs, m, er, hh⟩ := d
  simp only at ht
  subst ht
  constructor
  · intro h1 h2
    simp [handleMessage, dispatch, h1, h2]
  · intro h
    simp [handleMessage, dispatch, h]

/-- Witness for C2 amended: with iframe and content window attached, ready
yields exactly the config post built from the sample props. -/
theorem ready_posts_one_config_witness :
    handleMessage sampleProps sampleCtx sampleState
        ⟨sampleProps.iframeOrigin, tagOnly "ready"⟩ =
      (sampleState,
       [Effect.postConfig
          ⟨"test-app-123", some 123, some "Test prompt", "https://host.example.com",
           some [("--primary", "#FF0000")]⟩ "https://app.vana.com"]) :=
  (ready_posts_one_config sampleProps sampleCtx sampleState (tagOnly "ready") rfl).1 rfl rfl

/-- C3 counterexample: an error message whose message field is present but
empty does not surface the empty string to the error callback. -/
theorem error_present_empty_message_cex :
    (handleMessage sampleProps sampleCtx sampleState
       ⟨sampleProps.iframeOrigin, { tagOnly "error" with message := some "" }⟩).2
      ≠ [Effect.callOnError ""] := by
  decide

/-- C3 amended: an error message from the configured origin invokes the
error callback exactly once, with the message field when present and
nonempty, else the error field when present and nonempty, else the fixed
fallback string. -/
theorem error_callback_resolution
    (p : UploadProps) (ctx : HostCtx) (s : WidgetState) (d : MessageData)
    (ht : d.type = "error") :
    (∀ x, d.message = some x → x ≠ "" →
      handleMessage p ctx s ⟨p.iframeOrigin, d⟩ = (s, [Effect.callOnError x])) ∧
    ((d.message = none ∨ d.message = some "") →
      ∀ y, d.error = some y → y ≠ "" →
      handleMessage p ctx s ⟨p.iframeOrigin, d⟩ = (s, [Effect.callOnError y])) ∧
    ((d.message = none ∨ d.message = some "") →
      (d.error = none ∨ d.error = some "") →
      handleMessage p ctx s ⟨p.iframeOrigin, d⟩ =
        (s, [Effect.callOnError "An error occurred"])) := by
  obtain ⟨t, rd, wa, rs, m, er, hh⟩ := d
  simp only at ht
  subst ht
  refine ⟨?_, ?_, ?_⟩
  · intro x hm hx
    simp only at hm
    subst hm
    simp [handleMessage, dispatch, jsErrorMessage, strTruthy, hx]
  · intro hm y he hy
    simp only at hm he
    subst he
    rcases hm with hm | hm <;> subst hm <;>
      simp [handleMessage, dispatch, jsErrorMessage, strTruthy, hy]
  · intro hm he
    rcases hm with hm | hm <;> rcases he with he | he <;>
      simp only at hm he <;> subst hm <;> subst he <;>
      simp [handleMessage, dispatch, jsErrorMessage, strTruthy]

/-- Witness for C3 amended: an error message carrying message X invokes the
error callback with X. -/
theorem error_callback_resolution_witness :
    handleMessage sampleProps sampleCtx sampleState
        ⟨sampleProps.iframeOrigin, { tagOnly "error" with message := some "X" }⟩ =
      (sampleState, [Effect.callOnError "X"]) :=
  (error_callback_resolution sampleProps sampleCtx sampleState
      { tagOnly "error" with message := some "X" } rfl).1 "X" rfl (by decide)

/-- C5 counterexample: a resize message carrying height zero does not set
the height style to 0px; the iframe height is left unchanged. -/
theorem resize_zero_height_cex :
    ¬ ((handleMessage sampleProps sampleCtx sampleState
          ⟨sampleProps.iframeOrigin, { tagOnly "resize" with height := some 0 }⟩).1.heightStyle
        = "0px") := by
  decide

/-- C5 amended: a resize message from the configured origin carrying a
nonzero height, received while the iframe element is mounted, sets the
height style of the iframe to that number suffixed with px and fires no
callback; a resize with no height field changes nothing and fires no
callback. -/
theorem resize_applies_height :
    (∀ (p : UploadProps) (ctx : HostCtx) (s : WidgetState) (d : MessageData) (h : Int),
      d.type = "resize" → d.height = some h → h ≠ 0 → s.refAttached = true →
      handleMessage p ctx s ⟨p.iframeOrigin, d⟩ =
        ({ s with heightStyle := toString h ++ "px" }, [])) ∧
    (∀ (p : UploadProps) (ctx : HostCtx) (s : WidgetState) (d : MessageData),
      d.type = "resize" → d.height = none →
      handleMessage p ctx s ⟨p.iframeOrigin, d⟩ = (s, [])) := by
  constructor
  · intro p ctx s d h ht hh hz hr
    obtain ⟨t, rd, wa, rs, m, er, hgt⟩ := d
    simp only at ht hh
    subst ht
    subst hh
    simp [handleMessage, dispatch, intTruthy, hz, hr]
  · intro p ctx s d ht hh
    obtain ⟨t, rd, wa, rs, m, er, hgt⟩ := d
    simp only at ht hh
    subst ht
    subst hh
    simp [handleMessage, dispatch, intTruthy]

/-- Witness for C5 amended: height 750 yields the height style 750px. -/
theorem resize_applies_height_witness :
    handleMessage sampleProps sampleCtx sampleState
        ⟨sampleProps.iframeOrigin, { tagOnly "resize" with height := some 750 }⟩ =
      ({ sampleState with heightStyle := "750px" }, []) :=
  resize_applies_height.1 sampleProps sampleCtx sampleState
    { tagOnly "resize" with height := some 750 } 750 rfl rfl (by decide) rfl

/-- C9: an error message whose message field is the empty string (and whose
error field is absent), or whose message field is absent and whose error
field is the empty string, invokes the error callback with the fallback
string, not with the empty string. -/
theorem empty_error_fields_use_fallback :
    (∀ (p : UploadProps) (ctx : HostCtx) (s : WidgetState) (d : MessageData),
      d.type = "error" → d.message = some "" → d.error = none →
      handleMessage p ctx s ⟨p.iframeOrigin, d⟩ =
        (s, [Effect.callOnError "An error occurred"])) ∧
    (∀ (p : UploadProps) (ctx : HostCtx) (s : WidgetState) (d : MessageData),
      d.type = "error" → d.message = none → d.error = some "" →
      handleMessage p ctx s ⟨p.iframeOrigin, d⟩ =
        (s, [Effect.callOnError "An error occurred"])) := by
  constructor <;>
  · intro p ctx s d ht hm he
    obtain ⟨t, rd, wa, rs, m, er, hgt⟩ := d
    simp only at ht hm he
    subst ht
    subst hm
    subst he
    simp [handleMessage, dispatch, jsErrorMessage, strTruthy]

/-- Witness for C9: message present but empty, error absent, yields the
fallback string. -/
theorem empty_error_fields_use_fallback_witness :
    handleMessage sampleProps sampleCtx sampleState
        ⟨sampleProps.iframeOrigin, { tagOnly "error" with message := some "" }⟩ =
      (sampleState, [Effect.callOnError "An error occurred"]) :=
  empty_error_fields_use_fallback.1 sampleProps sampleCtx sampleState
    { tagOnly "error" with message := some "" } rfl rfl rfl

/-- C10: payload fields that are present but falsy are treated as missing:
complete with an empty result, auth with an empty wallet address, and
resize with height zero each leave the state unchanged and fire nothing. -/
theorem falsy_payload_fields_are_noops :
    (∀ (p : UploadProps) (ctx : HostCtx) (s : WidgetState) (d : MessageData),
      d.type = "complete" → d.result = some "" →
      handleMessage p ctx s ⟨p.iframeOrigin, d⟩ = (s, [])) ∧
    (∀ (p : UploadProps) (ctx : HostCtx) (s : WidgetState) (d : MessageData),
      d.type = "auth" → d.walletAddress = some "" →
      handleMessage p ctx s ⟨p.iframeOrigin, d⟩ = (s, [])) ∧
    (∀ (p : UploadProps) (ctx : HostCtx) (s : WidgetState) (d : MessageData),
      d.type = "resize" → d.height = some 0 →
      handleMessage p ctx s ⟨p.iframeOrigin, d⟩ = (s, [])) := by
  refine ⟨?_, ?_, ?_⟩ <;>
  · intro p ctx s d ht hf
    obtain ⟨t, rd, wa, rs, m, er, hgt⟩ := d
    simp only at ht hf
    subst ht
    subst hf
    simp [handleMessage, dispatch, strTruthy, intTruthy]

/-- Witness for C10: a complete message with an empty result is a no-op. -/
theorem falsy_payload_fields_are_noops_witness :
    handleMessage sampleProps sampleCtx sampleState
        ⟨sampleProps.iframeOrigin, { tagOnly "complete" with result := some "" }⟩ =
      (sampleState, []) :=
  falsy_payload_fields_are_noops.1 sampleProps sampleCtx sampleState
    { tagOnly "complete" with result := some "" } rfl rfl

/-- Processing a concatenation of message sequences threads the state and
concatenates the effects. -/
theorem processMessages_append (p : UploadProps) (ctx : HostCtx) (s : WidgetState)
    (l1 l2 : List MessageEvent) :
    processMessages p ctx s (l1 ++ l2) =
      ((processMessages p ctx (processMessages p ctx s l1).1 l2).1,
       (processMessages p ctx s l1).2 ++
         (processMessages p ctx (processMessages p ctx s l1).1 l2).2) := by
  induction l1 generalizing s with
  | nil => simp [processMessages]
  | cons ev rest ih => simp [processMessages, ih, List.append_assoc]

/-- C6: the handler keeps no state between messages. After any prior
sequence of messages, a further complete message with a nonempty result
invokes the result callback again, a further error message invokes the
error callback again, and for complete and error messages the effects do
not depend on the widget DOM state at all. -/
theorem handler_is_stateless_across_messages :
    (∀ (p : UploadProps) (ctx : HostCtx) (s : WidgetState) (evs : List MessageEvent)
        (r : String), r ≠ "" →
      processMessages p ctx s
          (evs ++ [⟨p.iframeOrigin, { tagOnly "complete" with result := some r }⟩]) =
        ((processMessages p ctx s evs).1,
         (processMessages p ctx s evs).2 ++ [Effect.callOnResult r])) ∧
    (∀ (p : UploadProps) (ctx : HostCtx) (s : WidgetState) (evs : List MessageEvent)
        (m er : Option String),
      processMessages p ctx s
          (evs ++ [⟨p.iframeOrigin, { tagOnly "error" with message := m, error := er }⟩]) =
        ((processMessages p ctx s evs).1,
         (processMessages p ctx s evs).2 ++ [Effect.callOnError (jsErrorMessage m er)])) ∧
    (∀ (p : UploadProps) (ctx : HostCtx) (s s2 : WidgetState) (d : MessageData),
      d.type = "complete" ∨ d.type = "error" →
      (handleMessage p ctx s ⟨p.iframeOrigin, d⟩).2 =
        (handleMessage p ctx s2 ⟨p.iframeOrigin, d⟩).2) := by
  refine ⟨?_, ?_, ?_⟩
  · intro p ctx s evs r hr
    rw [processMessages_append]
    simp [processMessages, handleMessage, dispatch, tagOnly, strTruthy, hr]
  · intro p ctx s evs m er
    rw [processMessages_append]
    simp [processMessages, handleMessage, dispatch, tagOnly]
  · intro p ctx s s2 d ht
    obtain ⟨t, rd, wa, rs, m, er, hgt⟩ := d
    rcases ht with ht | ht <;> simp only at ht <;> subst ht
    · simp [handleMessage, dispatch]
      by_cases hrs : strTruthy rs = true <;> simp [hrs]
    · simp [handleMessage, dispatch]

/-- Witness for C6: after a first complete message has fired the result
callback, a second complete message fires it again. -/
theorem handler_is_stateless_across_messages_witness :
    processMessages sampleProps sampleCtx sampleState
        ([⟨sampleProps.iframeOrigin, { tagOnly "complete" with result := some "first" }⟩] ++
          [⟨sampleProps.iframeOrigin, { tagOnly "complete" with result := some "again" }⟩]) =
      ((processMessages sampleProps sampleCtx sampleState
          [⟨sampleProps.iframeOrigin, { tagOnly "complete" with result := some "first" }⟩]).1,
       (processMessages sampleProps sampleCtx sampleState
          [⟨sampleProps.iframeOrigin, { tagOnly "complete" with result := some "first" }⟩]).2 ++
         [Effect.callOnResult "again"]) :=
  handler_is_stateless_across_messages.1 sampleProps sampleCtx sampleState
    [⟨sampleProps.iframeOrigin, { tagOnly "complete" with result := some "first" }⟩]
    "again" (by decide)

/-!
Part 2: the social share widget, from the two revisions of
VanaAppSocialShareWidget.tsx. The countdown revision composes a decorated
share text per platform; the instructions revision appends a plain suffix.
Clicking a share button is modelled as the list of synchronous effects of
the click handler.
-/

/-- The four share platforms, in the order of the SHARE_BUTTONS table. -/
inductive SocialPlatform where
  | twitter
  | facebook
  | linkedin
  | instagram
  deriving DecidableEq

/-- The capitalized display name passed to the toast text, produced in the
source by upcasing the first character of the platform tag. -/
def platformDisplayName : SocialPlatform → String
  | SocialPlatform.twitter => "Twitter"
  | SocialPlatform.facebook => "Facebook"
  | SocialPlatform.linkedin => "Linkedin"
  | SocialPlatform.instagram => "Instagram"

/-- First-occurrence replacement on character lists, the behavior of the
JavaScript replace method with a string pattern. -/
def replaceFirstAux (pat rep : List Char) : List Char → List Char
  | [] => if pat.isPrefixOf ([] : List Char) then rep else []
  | c :: rest =>
      if pat.isPrefixOf (c :: rest) then rep ++ (c :: rest).drop pat.length
      else c :: replaceFirstAux pat rep rest

/-- JavaScript replace with a string pattern: the first occurrence of the
pattern is replaced, later ones are kept. -/
def replaceFirst (s pat rep : String) : String :=
  ⟨replaceFirstAux pat.data rep.data s.data⟩

/-- Whether pat occurs as a contiguous run inside the character list. -/
def hasInfix (pat : List Char) : List Char → Bool
  | [] => pat.isPrefixOf ([] : List Char)
  | c :: rest => pat.isPrefixOf (c :: rest) || hasInfix pat rest

/-- Whether sub occurs as a substring of s. -/
def includesText (s sub : String) : Bool := hasInfix sub.data s.data

/-- Whether the text contains either of the literal substrings undefined
or null. -/
def textHasForbidden (s : String) : Bool :=
  includesText s "undefined" || includesText s "null"

/-- An optional prop value: provided when the flag is set, omitted
otherwise. -/
def optVal (provided : Bool) (v : String) : Option String :=
  if provided then some v else none

/-- Synchronous observable effects of one click of a share button. -/
inductive ShareEffect where
  | clipboardWrite (text : String)
  | callOnShare (platform : SocialPlatform)
  | copySuccessCountdown (platform : SocialPlatform) (text : String) (openDelayMs : Nat)
  | copySuccessPlain (platform : SocialPlatform) (text : String)
  | setToast (title descr : String)
  | scheduleToastHide (ms : Nat)
  deriving DecidableEq

/-- Recognizer for clipboard writes among share effects. -/
def isClipboardWrite : ShareEffect → Bool
  | ShareEffect.clipboardWrite _ => true
  | _ => false

namespace DecoratedShare

/-- The props bound to the countdown revision of the widget, after the
default values of the component head have been applied. -/
structure Props where
  appName : String
  shareContent : String
  shareEmoji : String
  funnyNote : String
  callToAction : String
  hashtag : String
  hasOnShare : Bool
  hasOnCopySuccess : Bool
  deriving DecidableEq

/-- React default-value application for the optional props of the
countdown revision: an omitted prop takes the default of the component
head. -/
def applyDefaults (appName shareContent : String)
    (shareEmoji funnyNote callToAction hashtag : Option String)
    (hasOnShare hasOnCopySuccess : Bool) : Props :=
  ⟨appName, shareContent, shareEmoji.getD "", funnyNote.getD "",
   callToAction.getD "Try @ app.vana.com", hashtag.getD "#DATAREVOLUTION",
   hasOnShare, hasOnCopySuccess⟩

/-- The share text composer of the countdown revision, translated from its
generateShareText. -/
def generateShareText (p : Props) (platform : SocialPlatform) : String :=
  let emoji := if p.shareEmoji != "" then p.shareEmoji ++ " " else ""
  let intro := "Tried Vana\x27s " ++ p.appName ++ ", look what I got:\n\n"
  let content := emoji ++ p.shareContent
  let note := if p.funnyNote != "" then "\n\n" ++ p.funnyNote else ""
  let cta := "\n\n" ++ p.callToAction
  let tag := "\n" ++ p.hashtag
  let needsFullUrl :=
    platform == SocialPlatform.instagram || platform == SocialPlatform.facebook
  let ctaWithUrl :=
    if needsFullUrl then replaceFirst cta "app.vana.com" "https://app.vana.com" else cta
  intro ++ content ++ note ++ ctaWithUrl ++ tag

/-- The synchronous effects of copyAndOpenWithCountdown: one clipboard
write, the optional share and copy-success callbacks, and the initial
countdown toast. -/
def copyAndOpenWithCountdown (p : Props) (platform : SocialPlatform) (text : String) :
    List ShareEffect :=
  [ShareEffect.clipboardWrite text]
    ++ (if p.hasOnShare then [ShareEffect.callOnShare platform] else [])
    ++ (if p.hasOnCopySuccess then [ShareEffect.copySuccessCountdown platform text 3000] else [])
    ++ [ShareEffect.setToast "Copied to clipboard!"
          ("Opening " ++ platformDisplayName platform ++ " in 3... Paste your message there.")]

/-- One click of the share button of a platform, as wired in the render
loop: the composed text is passed to copyAndOpenWithCountdown. -/
def handleClick (p : Props) (platform : SocialPlatform) : List ShareEffect :=
  copyAndOpenWithCountdown p platform (generateShareText p platform)

/-- Claim-side C7 definition, following the claim wording: the intro built
from the app name. -/
def introOf (appName : String) : String :=
  "Tried Vana\x27s " ++ appName ++ ", look what I got:\n\n"

/-- Claim-side C7 definition: the optional emoji prefix. -/
def emojiPrefixOf (e : String) : String :=
  if e = "" then "" else e ++ " "

/-- Claim-side C7 definition: the optional note. -/
def noteOf (n : String) : String :=
  if n = "" then "" else "\n\n" ++ n

/-- Claim-side C7 definition: the call-to-action block, with the bare
domain rewritten to an explicit scheme exactly for instagram and
facebook. -/
def ctaOf (c : String) : SocialPlatform → String
  | SocialPlatform.instagram => replaceFirst ("\n\n" ++ c) "app.vana.com" "https://app.vana.com"
  | SocialPlatform.facebook => replaceFirst ("\n\n" ++ c) "app.vana.com" "https://app.vana.com"
  | SocialPlatform.twitter => "\n\n" ++ c
  | SocialPlatform.linkedin => "\n\n" ++ c

/-- Claim-side C7 definition: the trailing hashtag block. -/
def hashtagOf (h : String) : String := "\n" ++ h

/-- Claim-side C7 definition: the composed text as the claim describes it,
intro then optional emoji prefix then content then optional note then
call to action then hashtag. -/
def specComposedText (p : Props) (platform : SocialPlatform) : String :=
  introOf p.appName ++ emojiPrefixOf p.shareEmoji ++ p.shareContent ++ noteOf p.funnyNote
    ++ ctaOf p.callToAction platform ++ hashtagOf p.hashtag

end DecoratedShare

namespace SuffixShare

/-- The props bound to the instructions revision of the widget, after the
default values of the component head have been applied. -/
structure Props where
  shareContent : String
  suffix : String
  hideToast : Bool
  toastDuration : Nat
  hasOnShare : Bool
  hasOnCopySuccess : Bool
  deriving DecidableEq

/-- React default-value application for the instructions revision. -/
def applyDefaults (shareContent : String) (sfx : Option String)
    (hasOnShare hasOnCopySuccess : Bool) : Props :=
  ⟨shareContent, sfx.getD "\n\nTry @ app.vana.com\n#datarevolution", false, 4000,
   hasOnShare, hasOnCopySuccess⟩

/-- The share text composer of the instructions revision, translated from
its generateShareText: content followed by suffix, no platform input. -/
def generateShareText (p : Props) : String :=
  p.shareContent ++ p.suffix

/-- The text handed to the click handler of each platform button in the
render loop; the platform is not consulted. -/
def shareTextFor (p : Props) (_platform : SocialPlatform) : String :=
  generateShareText p

/-- The synchronous effects of copyAndShowInstructions: one clipboard
write, the optional share and copy-success callbacks, and, unless hidden,
the instruction toast with its auto-hide timer. -/
def copyAndShowInstructions (p : Props) (platform : SocialPlatform) (text : String) :
    List ShareEffect :=
  [ShareEffect.clipboardWrite text]
    ++ (if p.hasOnShare then [ShareEffect.callOnShare platform] else [])
    ++ (if p.hasOnCopySuccess then [ShareEffect.copySuccessPlain platform text] else [])
    ++ (if !p.hideToast then
          [ShareEffect.setToast "Copied to clipboard!"
             ("Now go to " ++ platformDisplayName platform ++
               " and paste your message to share."),
           ShareEffect.scheduleToastHide p.toastDuration]
        else [])

/-- One click of the share button of a platform, as wired in the render
loop. -/
def handleClick (p : Props) (platform : SocialPlatform) : List ShareEffect :=
  copyAndShowInstructions p platform (shareTextFor p platform)

end SuffixShare

/-- C4: under the suffix composition policy the composed share text is the
plain concatenation of content and suffix, identical for every platform;
an empty suffix yields the content unchanged, and the default suffix on
the sample content yields exactly their concatenation. -/
theorem suffix_policy_concatenates_verbatim :
    (∀ (p : SuffixShare.Props) (pl : SocialPlatform),
      SuffixShare.shareTextFor p pl = p.shareContent ++ p.suffix) ∧
    (∀ (p : SuffixShare.Props) (pl pl2 : SocialPlatform),
      SuffixShare.shareTextFor p pl = SuffixShare.shareTextFor p pl2) ∧
    (∀ (content : String) (pl : SocialPlatform),
      SuffixShare.shareTextFor ⟨content, "", false, 4000, false, false⟩ pl = content) ∧
    (SuffixShare.generateShareText
        ⟨"Test content", "\n\nTry @ app.vana.com\n#datarevolution", false, 4000,
         false, false⟩ =
      "Test content" ++ "\n\nTry @ app.vana.com\n#datarevolution") := by
  refine ⟨?_, ?_, ?_, ?_⟩
  · intro p pl
    rfl
  · intro p pl pl2
    rfl
  · intro content pl
    simp [SuffixShare.shareTextFor, SuffixShare.generateShareText, String.append_empty]
  · rfl

/-- C7: under the decorated composition policy the composed text for every
platform is intro of the app name, then the optional emoji prefix, the
content, the optional note, the call to action and the hashtag, where
exactly instagram and facebook have the bare domain of the call to action
rewritten to carry an explicit scheme and twitter and linkedin keep it as
given. -/
theorem decorated_policy_composition :
    (∀ (p : DecoratedShare.Props) (pl : SocialPlatform),
      DecoratedShare.generateShareText p pl = DecoratedShare.specComposedText p pl) ∧
    (∀ (c : String),
      DecoratedShare.ctaOf c SocialPlatform.twitter = "\n\n" ++ c ∧
      DecoratedShare.ctaOf c SocialPlatform.linkedin = "\n\n" ++ c) ∧
    (DecoratedShare.ctaOf "Try @ app.vana.com" SocialPlatform.instagram =
        "\n\nTry @ https://app.vana.com" ∧
      DecoratedShare.ctaOf "Try @ app.vana.com" SocialPlatform.facebook =
        "\n\nTry @ https://app.vana.com") := by
  refine ⟨?_, ?_, ?_⟩
  · intro p pl
    simp only [DecoratedShare.generateShareText, DecoratedShare.specComposedText,
      DecoratedShare.introOf, DecoratedShare.emojiPrefixOf, DecoratedShare.noteOf,
      DecoratedShare.ctaOf, DecoratedShare.hashtagOf]
    by_cases he : p.shareEmoji = "" <;> by_cases hn : p.funnyNote = "" <;>
      cases pl <;>
      simp [he, hn, bne_iff_ne, String.append_assoc]
  · intro c
    exact ⟨rfl, rfl⟩
  · exact ⟨by decide, by decide⟩

/-- C8: every click of a share button writes to the clipboard exactly once,
in both revisions and for all props, and for every combination of omitted
optional props the composed text contains neither the literal substring
undefined nor the literal substring null. -/
theorem share_click_clipboard_once_no_undefined :
    (∀ (p : DecoratedShare.Props) (pl : SocialPlatform),
      (DecoratedShare.handleClick p pl).countP isClipboardWrite = 1) ∧
    (∀ (p : SuffixShare.Props) (pl : SocialPlatform),
      (SuffixShare.handleClick p pl).countP isClipboardWrite = 1) ∧
    (∀ (e n c t : Bool) (pl : SocialPlatform),
      textHasForbidden
        (DecoratedShare.generateShareText
          (DecoratedShare.applyDefaults "TestApp" "Test content"
            (optVal e "🍦") (optVal n "Sound like me?")
            (optVal c "Join me at app.vana.com") (optVal t "#DATA") false false) pl)
        = false) ∧
    (∀ (su : Bool) (pl : SocialPlatform),
      textHasForbidden
        (SuffixShare.shareTextFor
          (SuffixShare.applyDefaults "Test content" (optVal su "\n\nCustom tail")
            false false) pl)
        = false) := by
  refine ⟨?_, ?_, ?_, ?_⟩
  · intro p pl
    obtain ⟨a, sc, se, fn, ca, hg, hs, hc⟩ := p
    cases hs <;> cases hc <;>
      simp [DecoratedShare.handleClick, DecoratedShare.copyAndOpenWithCountdown,
        List.countP_append, List.countP_cons, isClipboardWrite]
  · intro p pl
    obtain ⟨sc, sfx, hid, dur, hs, hc⟩ := p
    cases hs <;> cases hc <;> cases hid <;>
      simp [SuffixShare.handleClick, SuffixShare.copyAndShowInstructions,
        List.countP_append, List.countP_cons, isClipboardWrite]
  · intro e n c t pl
    cases e <;> cases n <;> cases c <;> cases t <;> cases pl <;> decide
  · intro su pl
    cases su <;> cases pl <;> decide

end VanaReact
